import Mathlib

/-! Scenario driver of `FirstAssignment.cc`

A shallow embedding of the ns-3 scenario script `src/FirstAssignment.cc`.

The script is one `main` function.  Its first half (lines 36-171) builds a
configuration: two two-node point-to-point segments, their address blocks,
four application containers, the log registry and the stop time handed to the
simulator.  Its second half (lines 174-190) prints one block of text for each
entry of the flow statistics map returned by the flow monitor.

The first half is embedded as `main.setup`, a pure function of the two command
line flags returning the configuration as a `Scenario` record.  The second half
is embedded as `main.report`, a pure function of the classifier and of the
statistics map returning the printed lines.

Conventions.
* `Time` is an integer count of nanoseconds (`Time::SetResolution(Time::NS)`).
* `uint16_t`, `uint32_t` arithmetic is `Nat` arithmetic reduced `% 2^16`, `% 2^32`.
* C++ `double` values are idealised: finite values are exact rationals, and the
  three non-finite outcomes of IEEE division are explicit constructors.
-/

namespace FirstAssignment

/-! ## Simulated time -/

/-- Simulated time: a signed number of nanoseconds. -/
structure Time where
  ns : Int
  deriving DecidableEq, Repr

instance : LE Time := ⟨fun a b => a.ns ≤ b.ns⟩
instance : LT Time := ⟨fun a b => a.ns < b.ns⟩
instance (a b : Time) : Decidable (a ≤ b) := inferInstanceAs (Decidable (a.ns ≤ b.ns))
instance (a b : Time) : Decidable (a < b) := inferInstanceAs (Decidable (a.ns < b.ns))

/-- The `Seconds(value)` constructor: the given number of seconds in nanosecond ticks. -/
def Seconds (value : ℚ) : Time := ⟨Int.floor (value * 1000000000)⟩

/-- The `Time::GetSeconds()` accessor: the time as a (fractional) number of seconds. -/
def Time.GetSeconds (t : Time) : ℚ := (t.ns : ℚ) / 1000000000

/-! ## Addresses -/

/-- An IPv4 address or mask, held as its 32-bit value. -/
structure Ipv4Address where
  value : Nat
  deriving DecidableEq, Repr

/-- Dotted-quad literal `a.b.c.d`. -/
def Ipv4Address.quad (a b c d : Nat) : Ipv4Address :=
  ⟨((a * 256 + b) * 256 + c) * 256 + d⟩

/-- An address block: what `Ipv4AddressHelper::SetBase(network, mask)` records. -/
structure Ipv4AddressHelper where
  network : Ipv4Address
  mask : Ipv4Address
  deriving DecidableEq, Repr

/-- The `SetBase(network, mask)` call on a fresh helper. -/
def Ipv4AddressHelper.SetBase (network mask : Ipv4Address) : Ipv4AddressHelper :=
  ⟨network, mask⟩

/-- Membership of an address in a block: address AND mask equals the block base. -/
def Ipv4AddressHelper.contains (h : Ipv4AddressHelper) (a : Nat) : Prop :=
  a &&& h.mask.value = h.network.value

instance (h : Ipv4AddressHelper) (a : Nat) : Decidable (h.contains a) :=
  inferInstanceAs (Decidable (a &&& h.mask.value = h.network.value))

/-! ## Nodes, devices, interfaces -/

/-- A simulation node, identified by its position in the global node list. -/
structure Node where
  id : Nat
  deriving DecidableEq, Repr

/-- A node container. -/
abbrev NodeContainer := List Node

/-- The call `Create(n)` on a fresh container when `first` nodes exist already. -/
def NodeContainer.Create (first n : Nat) : NodeContainer :=
  (List.range n).map fun i => ⟨first + i⟩

/-- The call `Get(i)`. -/
def NodeContainer.Get (c : NodeContainer) (i : Nat) : Option Node := c.get? i

/-- A point-to-point net device, attached to one node. -/
structure NetDevice where
  node : Node
  dataRate : String
  delay : String
  deriving DecidableEq, Repr

/-- A point-to-point helper with its device and channel attribute. -/
structure PointToPointHelper where
  dataRate : String
  delay : String
  deriving DecidableEq, Repr

/-- The call `Install(nodes)`: one device per node, in container order. -/
def PointToPointHelper.Install (h : PointToPointHelper) (c : NodeContainer) : List NetDevice :=
  c.map fun n => ⟨n, h.dataRate, h.delay⟩

/-- One entry of an interface container: the device and the address it got. -/
structure Ipv4Interface where
  device : NetDevice
  address : Ipv4Address
  deriving DecidableEq, Repr

/-- The call `Assign(devices)`: the i-th device gets host number i+1 of the block. -/
def Ipv4AddressHelper.Assign (h : Ipv4AddressHelper) (ds : List NetDevice) : List Ipv4Interface :=
  ds.enum.map fun p => ⟨p.2, ⟨h.network.value + (p.1 + 1)⟩⟩

/-- The call `GetAddress(i)` on an interface container. -/
def GetAddress (c : List Ipv4Interface) (i : Nat) : Option Ipv4Address :=
  (c.get? i).map Ipv4Interface.address

/-! ## Applications -/

/-- Values an application attribute can hold. -/
inductive AttributeValue where
  | UintegerValue (n : Nat)
  | TimeValue (t : Time)
  | StringValue (s : String)
  | AddressValue (a : Option Ipv4Address)
  | SocketAddressValue (a : Option Ipv4Address) (port : Nat)
  deriving DecidableEq, Repr

open AttributeValue

/-- An installed application. -/
structure Application where
  typeId : String
  node : Node
  attributes : List (String × AttributeValue)
  startTime : Time
  stopTime : Time
  deriving DecidableEq, Repr

/-- An application helper: the type to create and the attributes set so far. -/
structure ApplicationHelper where
  typeId : String
  attributes : List (String × AttributeValue)
  deriving DecidableEq, Repr

/-- An application container. -/
abbrev ApplicationContainer := List Application

/-- The call `SetAttribute(name, value)`: a later value replaces an earlier one. -/
def ApplicationHelper.SetAttribute (h : ApplicationHelper) (name : String)
    (v : AttributeValue) : ApplicationHelper :=
  { h with attributes := (h.attributes.filter fun p => p.1 != name) ++ [(name, v)] }

/-- The call `Install(node)`: one application on the node, none when the node is missing. -/
def ApplicationHelper.Install (h : ApplicationHelper) (n : Option Node) : ApplicationContainer :=
  match n with
  | some node => [⟨h.typeId, node, h.attributes, ⟨0⟩, ⟨0⟩⟩]
  | none => []

/-- The call `Start(t)` on a container. -/
def ApplicationContainer.Start (c : ApplicationContainer) (t : Time) : ApplicationContainer :=
  c.map fun a => { a with startTime := t }

/-- The call `Stop(t)` on a container. -/
def ApplicationContainer.Stop (c : ApplicationContainer) (t : Time) : ApplicationContainer :=
  c.map fun a => { a with stopTime := t }

/-- Attribute lookup on an installed application. -/
def Application.GetAttribute (a : Application) (name : String) : Option AttributeValue :=
  (a.attributes.find? fun p => p.1 == name).map Prod.snd

/-- The constructor `UdpEchoServerHelper(port)`. -/
def UdpEchoServerHelper (port : Nat) : ApplicationHelper :=
  (ApplicationHelper.mk "ns3::UdpEchoServer" []).SetAttribute "Port" (UintegerValue (port % 2 ^ 16))

/-- The constructor `UdpEchoClientHelper(address, port)`. -/
def UdpEchoClientHelper (address : Option Ipv4Address) (port : Nat) : ApplicationHelper :=
  ((ApplicationHelper.mk "ns3::UdpEchoClient" []).SetAttribute "RemoteAddress"
    (AddressValue address)).SetAttribute "RemotePort" (UintegerValue (port % 2 ^ 16))

/-- The constructor `PacketSinkHelper(protocol, address)`. -/
def PacketSinkHelper (protocol : String) (address : AttributeValue) : ApplicationHelper :=
  ((ApplicationHelper.mk "ns3::PacketSink" []).SetAttribute "Protocol"
    (StringValue protocol)).SetAttribute "Local" address

/-- The constructor `BulkSendHelper(protocol, address)`. -/
def BulkSendHelper (protocol : String) (address : AttributeValue) : ApplicationHelper :=
  ((ApplicationHelper.mk "ns3::BulkSendApplication" []).SetAttribute "Protocol"
    (StringValue protocol)).SetAttribute "Remote" address

/-- The constructor `InetSocketAddress(address, port)` wrapped in an `Address`. -/
def InetSocketAddress (address : Option Ipv4Address) (port : Nat) : AttributeValue :=
  SocketAddressValue address (port % 2 ^ 16)

/-! ## Logging -/

/-- Log levels named by the script. -/
inductive LogLevel where
  | LOG_LEVEL_INFO
  deriving DecidableEq, Repr

/-- The log registry: which (component, level) pairs are enabled. -/
abbrev LogRegistry := List (String × LogLevel)

/-- The call `LogComponentEnable(name, level)`: enabling twice changes nothing. -/
def LogComponentEnable (r : LogRegistry) (name : String) (level : LogLevel) : LogRegistry :=
  if (name, level) ∈ r then r else r ++ [(name, level)]

/-! ## The configuration built by `main` -/

/-- Everything `main` has configured when it calls `Simulator::Run()`. -/
structure Scenario where
  stdout : List String
  defaults : List (String × AttributeValue)
  log : LogRegistry
  nodesOne : NodeContainer
  nodesTwo : NodeContainer
  devicesA : List NetDevice
  devicesB : List NetDevice
  addressOne : Ipv4AddressHelper
  addressTwo : Ipv4AddressHelper
  interfacesA : List Ipv4Interface
  interfacesB : List Ipv4Interface
  serverAppsA : ApplicationContainer
  serverAppsB : ApplicationContainer
  clientAppsA : ApplicationContainer
  clientAppsB : ApplicationContainer
  simulatorStop : Time
  deriving DecidableEq, Repr

/-- The packet count `maxPackets` of line 40. -/
def maxPackets : Nat := 10

/-- The `packetSize` of line 131. -/
def packetSize : Nat := 1024

/-- The product of line 132, `maxPackets * packetSize` in `uint32_t`. -/
def maxBytes : Nat := (maxPackets * packetSize) % 2 ^ 32

/-- TCP port of segment A (line 129). -/
def portA : Nat := 8080

/-- TCP port of segment B (line 130). -/
def portB : Nat := 8081

/-- Lines 36-171 of `main`: the configuration as a function of the two flags. -/
def main.setup (useTcp verbose : Bool) : Scenario :=
  let out := ["----------------------------------\n"]
  let defaults := [("ns3::TcpSocket::SegmentSize", UintegerValue 1024)]
  let log : LogRegistry := []
  let log := LogComponentEnable log "UdpEchoClientApplication" .LOG_LEVEL_INFO
  let log := LogComponentEnable log "UdpEchoServerApplication" .LOG_LEVEL_INFO
  let nodesOne := NodeContainer.Create 0 2
  let pointToPointA : PointToPointHelper := ⟨"5Mbps", "2ms"⟩
  let devicesA := pointToPointA.Install nodesOne
  let nodesTwo := NodeContainer.Create 2 2
  let pointToPointB : PointToPointHelper := ⟨"5Mbps", "2ms"⟩
  let devicesB := pointToPointB.Install nodesTwo
  let addressOne := Ipv4AddressHelper.SetBase (.quad 10 1 1 0) (.quad 255 255 255 0)
  let interfacesA := addressOne.Assign devicesA
  let addressTwo := Ipv4AddressHelper.SetBase (.quad 10 1 2 0) (.quad 255 255 255 0)
  let interfacesB := addressTwo.Assign devicesB
  if !useTcp then
    let out := out ++ ["Using UDP\n\n"]
    let echoServerA := UdpEchoServerHelper 9
    let serverAppsA := echoServerA.Install (nodesOne.Get 1)
    let serverAppsA := serverAppsA.Start (Seconds 1)
    let serverAppsA := serverAppsA.Stop (Seconds 12)
    let echoServerB := UdpEchoServerHelper 10
    let serverAppsB := echoServerB.Install (nodesTwo.Get 1)
    let serverAppsB := serverAppsB.Start (Seconds 1)
    let serverAppsB := serverAppsB.Stop (Seconds 12)
    let echoClientA := UdpEchoClientHelper (GetAddress interfacesA 1) 9
    let echoClientA := echoClientA.SetAttribute "MaxPackets" (UintegerValue maxPackets)
    let echoClientA := echoClientA.SetAttribute "Interval" (TimeValue (Seconds (1 / 2)))
    let echoClientA := echoClientA.SetAttribute "PacketSize" (UintegerValue 1024)
    let clientAppsA := echoClientA.Install (nodesOne.Get 0)
    let clientAppsA := clientAppsA.Start (Seconds 2)
    let clientAppsA := clientAppsA.Stop (Seconds 12)
    let echoClientB := UdpEchoClientHelper (GetAddress interfacesB 1) 10
    let echoClientB := echoClientB.SetAttribute "MaxPackets" (UintegerValue maxPackets)
    let echoClientB := echoClientB.SetAttribute "Interval" (TimeValue (Seconds (1 / 2)))
    let echoClientB := echoClientB.SetAttribute "PacketSize" (UintegerValue 1024)
    let clientAppsB := echoClientB.Install (nodesTwo.Get 0)
    let clientAppsB := clientAppsB.Start (Seconds 2)
    let clientAppsB := clientAppsB.Stop (Seconds 12)
    let log :=
      if verbose then
        LogComponentEnable
          (LogComponentEnable log "UdpEchoClientApplication" .LOG_LEVEL_INFO)
          "UdpEchoServerApplication" .LOG_LEVEL_INFO
      else log
    { stdout := out, defaults := defaults, log := log,
      nodesOne := nodesOne, nodesTwo := nodesTwo, devicesA := devicesA, devicesB := devicesB,
      addressOne := addressOne, addressTwo := addressTwo,
      interfacesA := interfacesA, interfacesB := interfacesB,
      serverAppsA := serverAppsA, serverAppsB := serverAppsB,
      clientAppsA := clientAppsA, clientAppsB := clientAppsB,
      simulatorStop := Seconds 10 }
  else
    let out := out ++ ["Using TCP\n\n"]
    let serverAddressA := InetSocketAddress (GetAddress interfacesA 1) portA
    let packetSinkHelperA := PacketSinkHelper "ns3::TcpSocketFactory" serverAddressA
    let serverAppsA := packetSinkHelperA.Install (nodesOne.Get 1)
    let serverAppsA := serverAppsA.Start (Seconds 1)
    let serverAppsA := serverAppsA.Stop (Seconds 12)
    let serverAddressB := InetSocketAddress (GetAddress interfacesB 1) portB
    let packetSinkHelperB := PacketSinkHelper "ns3::TcpSocketFactory" serverAddressB
    let serverAppsB := packetSinkHelperB.Install (nodesTwo.Get 1)
    let serverAppsB := serverAppsB.Start (Seconds 1)
    let serverAppsB := serverAppsB.Stop (Seconds 12)
    let clientHelperA := BulkSendHelper "ns3::TcpSocketFactory" serverAddressA
    let clientHelperA := clientHelperA.SetAttribute "MaxBytes" (UintegerValue maxBytes)
    let clientHelperA := clientHelperA.SetAttribute "SendSize" (UintegerValue packetSize)
    let clientAppsA := clientHelperA.Install (nodesOne.Get 0)
    let clientAppsA := clientAppsA.Start (Seconds 2)
    let clientAppsA := clientAppsA.Stop (Seconds 12)
    let clientHelperB := BulkSendHelper "ns3::TcpSocketFactory" serverAddressB
    let clientHelperB := clientHelperB.SetAttribute "MaxBytes" (UintegerValue maxBytes)
    let clientHelperB := clientHelperB.SetAttribute "SendSize" (UintegerValue packetSize)
    let clientAppsB := clientHelperB.Install (nodesTwo.Get 0)
    let clientAppsB := clientAppsB.Start (Seconds 2)
    let clientAppsB := clientAppsB.Stop (Seconds 12)
    let log := if verbose then LogComponentEnable log "TcpSocketBase" .LOG_LEVEL_INFO else log
    { stdout := out, defaults := defaults, log := log,
      nodesOne := nodesOne, nodesTwo := nodesTwo, devicesA := devicesA, devicesB := devicesB,
      addressOne := addressOne, addressTwo := addressTwo,
      interfacesA := interfacesA, interfacesB := interfacesB,
      serverAppsA := serverAppsA, serverAppsB := serverAppsB,
      clientAppsA := clientAppsA, clientAppsB := clientAppsB,
      simulatorStop := Seconds 10 }

/-- Every application the driver installs, in installation order. -/
def Scenario.applications (s : Scenario) : List Application :=
  s.serverAppsA ++ s.serverAppsB ++ s.clientAppsA ++ s.clientAppsB

/-- The target address of a sender: `RemoteAddress` (echo client) or `Remote` (bulk sender). -/
def Application.remoteAddress (a : Application) : Option Ipv4Address :=
  match a.GetAttribute "RemoteAddress", a.GetAttribute "Remote" with
  | some (AddressValue x), _ => x
  | _, some (SocketAddressValue x _) => x
  | _, _ => none

/-- The port an application listens on or sends to. -/
def Application.port (a : Application) : Option Nat :=
  match a.GetAttribute "Port", a.GetAttribute "RemotePort", a.GetAttribute "Local",
      a.GetAttribute "Remote" with
  | some (UintegerValue p), _, _, _ => some p
  | _, some (UintegerValue p), _, _ => some p
  | _, _, some (SocketAddressValue _ p), _ => some p
  | _, _, _, some (SocketAddressValue _ p) => some p
  | _, _, _, _ => none

/-- Type names of the two UDP echo applications. -/
def udpTypes : List String := ["ns3::UdpEchoServer", "ns3::UdpEchoClient"]

/-- Type names of the two TCP applications. -/
def tcpTypes : List String := ["ns3::PacketSink", "ns3::BulkSendApplication"]

/-! ## Idealised `double` arithmetic -/

/-- A C++ `double`, idealised: an exact rational, or one of the non-finite values. -/
inductive Double where
  | finite (q : ℚ)
  | posInf
  | negInf
  | nan
  deriving DecidableEq

/-- Whether a value is finite. -/
def Double.isFinite : Double → Bool
  | .finite _ => true
  | _ => false

/-- The result of dividing the finite value `a` by zero. -/
def Double.byZero (a : ℚ) : Double :=
  if a = 0 then .nan else if 0 < a then .posInf else .negInf

/-- Division of `double` values; a zero divisor is not an error, it gives a non-finite value. -/
def Double.div : Double → Double → Double
  | .finite a, .finite b => if b = 0 then Double.byZero a else .finite (a / b)
  | .finite _, .posInf => .finite 0
  | .finite _, .negInf => .finite 0
  | .posInf, .finite b => if 0 ≤ b then .posInf else .negInf
  | .negInf, .finite b => if 0 ≤ b then .negInf else .posInf
  | _, _ => .nan

/-! ## Flow statistics and the report -/

/-- Flow identifier (`uint32_t`). -/
abbrev FlowId := Nat

/-- The fields of `FlowMonitor::FlowStats` the report reads. -/
structure FlowStats where
  timeFirstTxPacket : Time
  timeLastRxPacket : Time
  delaySum : Time
  txBytes : Nat
  rxBytes : Nat
  txPackets : Nat
  rxPackets : Nat
  lostPackets : Nat
  deriving DecidableEq

/-- The fields of `Ipv4FlowClassifier::FiveTuple` the report reads. -/
structure FiveTuple where
  sourceAddress : Ipv4Address
  destinationAddress : Ipv4Address
  deriving DecidableEq

/-- A `std::map<FlowId, FlowStats>`: its entries, which iteration visits in key order. -/
structure FlowMap where
  entries : List (FlowId × FlowStats)
  ordered : entries.Pairwise fun a b => a.1 < b.1

/-- One operand of a `std::cout <<` chain. -/
inductive Item where
  | text (s : String)
  | uint (n : Nat)
  | address (a : Ipv4Address)
  | real (d : Double)
  deriving DecidableEq

/-- One `std::cout << ... ;` statement: its operands in order. -/
abbrev Statement := List Item

/-- Number of newline characters an operand prints. -/
def Item.newlines : Item → Nat
  | .text s => s.toList.count (Char.ofNat 10)
  | _ => 0

/-- Number of newline characters a statement prints. -/
def Statement.newlines (st : Statement) : Nat := (st.map Item.newlines).sum

/-- The leading string literal of a statement. -/
def Statement.label : Statement → Option String
  | .text s :: _ => some s
  | _ => none

/-- The flow id printed by a statement that starts with the text `Flow ID: `. -/
def Statement.flowId : Statement → Option FlowId
  | .text "Flow ID: " :: .uint n :: _ => some n
  | _ => none

/-- The divisor of line 186: last reception time minus first transmission time, in seconds.
The difference is taken exactly; the rounding of the two `GetSeconds()` results to `double`
is not represented, so this value is only the operand shown in the Throughput statement. -/
def throughputDivisor (s : FlowStats) : ℚ :=
  s.timeLastRxPacket.GetSeconds - s.timeFirstTxPacket.GetSeconds

/-- The throughput expression of line 186, over the exact divisor above.  No property of
floating-point finiteness is derived from it. -/
def throughput (s : FlowStats) : Double :=
  Double.div (Double.div (.finite ((s.rxBytes : ℚ) * 8)) (.finite (throughputDivisor s)))
    (.finite 1024)

/-- The mean delay expression of line 187. -/
def meanDelay (s : FlowStats) : Double :=
  Double.div (.finite s.delaySum.GetSeconds) (.finite (s.rxPackets : ℚ))

/-- The divider literal of line 189. -/
def divider : String := "-------------------------------\n"

/-- The body of the loop of lines 178-190, for one map entry. -/
def main.report.block (FindFlow : FlowId → FiveTuple) (i : FlowId × FlowStats) :
    List Statement :=
  let t := FindFlow i.1
  [ [.text "Flow ID: ", .uint i.1, .text " (", .address t.sourceAddress, .text " -> ",
      .address t.destinationAddress, .text ")\n"],
    [.text "Tx Packets: ", .uint i.2.txPackets, .text "\n"],
    [.text "Rx Packets: ", .uint i.2.rxPackets, .text "\n"],
    [.text "Tx Bytes: ", .uint i.2.txBytes, .text "\n"],
    [.text "Rx Bytes: ", .uint i.2.rxBytes, .text "\n"],
    [.text "Throughput: ", .real (throughput i.2), .text " Kbps\n"],
    [.text "Delay: ", .real (meanDelay i.2), .text " s\n"],
    [.text "Lost Packets: ", .uint i.2.lostPackets, .text "\n"],
    [.text divider] ]

/-- The loop of lines 178-190 over the entries from `begin()` to `end()`. -/
def main.report.loop (FindFlow : FlowId → FiveTuple) :
    List (FlowId × FlowStats) → List Statement
  | [] => []
  | i :: rest => main.report.block FindFlow i ++ main.report.loop FindFlow rest

/-- Lines 176-190 of `main`: the statements printed for a statistics map. -/
def main.report (FindFlow : FlowId → FiveTuple) (stats : FlowMap) : List Statement :=
  main.report.loop FindFlow stats.entries

/-- The labels of the nine statements of a block, in order. -/
def blockLabels : List String :=
  ["Flow ID: ", "Tx Packets: ", "Rx Packets: ", "Tx Bytes: ", "Rx Bytes: ", "Throughput: ",
    "Delay: ", "Lost Packets: ", "-------------------------------\n"]

/-! ## Concrete inputs used in the examples below -/

/-- A record of a flow that delivered ten packets. -/
def statsDelivered : FlowStats :=
  { timeFirstTxPacket := ⟨2000000000⟩, timeLastRxPacket := ⟨6503686400⟩,
    delaySum := ⟨36864000⟩, txBytes := 10520, rxBytes := 10520, txPackets := 10,
    rxPackets := 10, lostPackets := 0 }

/-- A record of a flow that delivered nothing. -/
def statsNothingReceived : FlowStats :=
  { timeFirstTxPacket := ⟨2000000000⟩, timeLastRxPacket := ⟨0⟩, delaySum := ⟨0⟩,
    txBytes := 1052, rxBytes := 0, txPackets := 1, rxPackets := 0, lostPackets := 1 }

/-- A classifier for the examples: every flow goes from 10.1.1.1 to 10.1.1.2. -/
def sampleFindFlow : FlowId → FiveTuple :=
  fun _ => ⟨.quad 10 1 1 1, .quad 10 1 1 2⟩

/-- A statistics map with the single flow 1. -/
def oneFlow : FlowMap := ⟨[(1, statsDelivered)], by simp⟩

/-- A statistics map with the flows 1 and 2. -/
def twoFlows : FlowMap := ⟨[(1, statsDelivered), (2, statsNothingReceived)], by simp⟩

/-- The echo server the UDP configuration installs on segment A. -/
def echoServerAppA : Application :=
  ⟨"ns3::UdpEchoServer", ⟨1⟩, [("Port", UintegerValue 9)], Seconds 1, Seconds 12⟩

/-- The echo server the UDP configuration installs on segment B. -/
def echoServerAppB : Application :=
  ⟨"ns3::UdpEchoServer", ⟨3⟩, [("Port", UintegerValue 10)], Seconds 1, Seconds 12⟩

/-- The echo client the UDP configuration installs on segment A. -/
def echoClientAppA : Application :=
  ⟨"ns3::UdpEchoClient", ⟨0⟩,
    [("RemoteAddress", AddressValue (some (.quad 10 1 1 2))), ("RemotePort", UintegerValue 9),
      ("MaxPackets", UintegerValue 10), ("Interval", TimeValue (Seconds (1 / 2))),
      ("PacketSize", UintegerValue 1024)],
    Seconds 2, Seconds 12⟩

/-- The echo client the UDP configuration installs on segment B. -/
def echoClientAppB : Application :=
  ⟨"ns3::UdpEchoClient", ⟨2⟩,
    [("RemoteAddress", AddressValue (some (.quad 10 1 2 2))), ("RemotePort", UintegerValue 10),
      ("MaxPackets", UintegerValue 10), ("Interval", TimeValue (Seconds (1 / 2))),
      ("PacketSize", UintegerValue 1024)],
    Seconds 2, Seconds 12⟩

/-- The packet sink the TCP configuration installs on segment A. -/
def packetSinkAppA : Application :=
  ⟨"ns3::PacketSink", ⟨1⟩,
    [("Protocol", StringValue "ns3::TcpSocketFactory"),
      ("Local", SocketAddressValue (some (.quad 10 1 1 2)) 8080)],
    Seconds 1, Seconds 12⟩

/-- The packet sink the TCP configuration installs on segment B. -/
def packetSinkAppB : Application :=
  ⟨"ns3::PacketSink", ⟨3⟩,
    [("Protocol", StringValue "ns3::TcpSocketFactory"),
      ("Local", SocketAddressValue (some (.quad 10 1 2 2)) 8081)],
    Seconds 1, Seconds 12⟩

/-- The bulk sender the TCP configuration installs on segment A. -/
def bulkSenderAppA : Application :=
  ⟨"ns3::BulkSendApplication", ⟨0⟩,
    [("Protocol", StringValue "ns3::TcpSocketFactory"),
      ("Remote", SocketAddressValue (some (.quad 10 1 1 2)) 8080),
      ("MaxBytes", UintegerValue 10240), ("SendSize", UintegerValue 1024)],
    Seconds 2, Seconds 12⟩

/-- The bulk sender the TCP configuration installs on segment B. -/
def bulkSenderAppB : Application :=
  ⟨"ns3::BulkSendApplication", ⟨2⟩,
    [("Protocol", StringValue "ns3::TcpSocketFactory"),
      ("Remote", SocketAddressValue (some (.quad 10 1 2 2)) 8081),
      ("MaxBytes", UintegerValue 10240), ("SendSize", UintegerValue 1024)],
    Seconds 2, Seconds 12⟩

/-! ## Auxiliary lemmas -/

theorem Seconds_natCast (n : ℕ) : Seconds (n : ℚ) = ⟨(n : Int) * 1000000000⟩ := by
  have h : ((n : ℚ) * 1000000000) = (((n * 1000000000 : ℕ) : ℤ) : ℚ) := by push_cast; ring
  simp only [Seconds, h, Int.floor_intCast]
  push_cast; rfl

theorem Seconds_one : Seconds 1 = ⟨1000000000⟩ := by
  have := Seconds_natCast 1
  norm_num at this; exact this

theorem Seconds_two : Seconds 2 = ⟨2000000000⟩ := by
  have := Seconds_natCast 2
  norm_num at this; exact this

theorem Seconds_ten : Seconds 10 = ⟨10000000000⟩ := by
  have := Seconds_natCast 10
  norm_num at this; exact this

theorem Seconds_twelve : Seconds 12 = ⟨12000000000⟩ := by
  have := Seconds_natCast 12
  norm_num at this; exact this

theorem Time.le_def (a b : Time) : a ≤ b ↔ a.ns ≤ b.ns := Iff.rfl

theorem Time.lt_def (a b : Time) : a < b ↔ a.ns < b.ns := Iff.rfl

theorem setup_udp_containers (verbose : Bool) :
    (main.setup false verbose).serverAppsA = [echoServerAppA] ∧
    (main.setup false verbose).serverAppsB = [echoServerAppB] ∧
    (main.setup false verbose).clientAppsA = [echoClientAppA] ∧
    (main.setup false verbose).clientAppsB = [echoClientAppB] := by
  cases verbose <;> exact ⟨rfl, rfl, rfl, rfl⟩

theorem setup_tcp_containers (verbose : Bool) :
    (main.setup true verbose).serverAppsA = [packetSinkAppA] ∧
    (main.setup true verbose).serverAppsB = [packetSinkAppB] ∧
    (main.setup true verbose).clientAppsA = [bulkSenderAppA] ∧
    (main.setup true verbose).clientAppsB = [bulkSenderAppB] := by
  cases verbose <;> exact ⟨rfl, rfl, rfl, rfl⟩

theorem setup_udp_applications (verbose : Bool) :
    (main.setup false verbose).applications =
      [echoServerAppA, echoServerAppB, echoClientAppA, echoClientAppB] := by
  cases verbose <;> rfl

theorem setup_tcp_applications (verbose : Bool) :
    (main.setup true verbose).applications =
      [packetSinkAppA, packetSinkAppB, bulkSenderAppA, bulkSenderAppB] := by
  cases verbose <;> rfl

theorem setup_simulatorStop (useTcp verbose : Bool) :
    (main.setup useTcp verbose).simulatorStop = Seconds 10 := by
  cases useTcp <;> cases verbose <;> rfl

/-! ## C1, C2: application schedule -/

/-- C1 (as stated, refuted): the bulk sender of segment A is installed in TCP mode and its
stop time is not less than or equal to the stop time given to the simulator. -/
theorem stop_time_exceeds_simulator_stop :
    bulkSenderAppA ∈ (main.setup true false).applications ∧
      ¬ (bulkSenderAppA.stopTime ≤ (main.setup true false).simulatorStop) := by
  refine ⟨by simp [setup_tcp_applications], ?_⟩
  rw [setup_simulatorStop, Time.le_def]
  simp only [bulkSenderAppA, Seconds_ten, Seconds_twelve]
  decide

/-- C1 (amended): in both modes every installed application has stop time 12 s, the simulator
is stopped at 10 s, so every stop time is strictly greater than the simulator stop time, and
every start time is less than or equal to it. -/
theorem stop_time_is_twelve (useTcp verbose : Bool) (a : Application)
    (h : a ∈ (main.setup useTcp verbose).applications) :
    a.stopTime = Seconds 12 ∧ (main.setup useTcp verbose).simulatorStop = Seconds 10 ∧
      (main.setup useTcp verbose).simulatorStop < a.stopTime ∧
      a.startTime ≤ (main.setup useTcp verbose).simulatorStop := by
  have h10 : Seconds 10 < Seconds 12 := by
    rw [Time.lt_def, Seconds_ten, Seconds_twelve]; decide
  have h1 : Seconds 1 ≤ Seconds 10 := by
    rw [Time.le_def, Seconds_ten, Seconds_one]; decide
  have h2 : Seconds 2 ≤ Seconds 10 := by
    rw [Time.le_def, Seconds_ten, Seconds_two]; decide
  rw [setup_simulatorStop]
  cases useTcp
  · rw [setup_udp_applications] at h
    simp only [List.mem_cons, List.mem_singleton, List.not_mem_nil, or_false] at h
    rcases h with rfl | rfl | rfl | rfl
    · exact ⟨rfl, rfl, h10, h1⟩
    · exact ⟨rfl, rfl, h10, h1⟩
    · exact ⟨rfl, rfl, h10, h2⟩
    · exact ⟨rfl, rfl, h10, h2⟩
  · rw [setup_tcp_applications] at h
    simp only [List.mem_cons, List.mem_singleton, List.not_mem_nil, or_false] at h
    rcases h with rfl | rfl | rfl | rfl
    · exact ⟨rfl, rfl, h10, h1⟩
    · exact ⟨rfl, rfl, h10, h1⟩
    · exact ⟨rfl, rfl, h10, h2⟩
    · exact ⟨rfl, rfl, h10, h2⟩

/-- C1 (amended), instance: the echo client of segment B in UDP mode. -/
theorem stop_time_is_twelve_witness :
    echoClientAppB ∈ (main.setup false true).applications ∧
      (echoClientAppB.stopTime = Seconds 12 ∧
        (main.setup false true).simulatorStop = Seconds 10 ∧
        (main.setup false true).simulatorStop < echoClientAppB.stopTime ∧
        echoClientAppB.startTime ≤ (main.setup false true).simulatorStop) :=
  ⟨by simp [setup_udp_applications],
    stop_time_is_twelve false true echoClientAppB (by simp [setup_udp_applications])⟩

/-- C2: in both modes and on both segments the receiver container holds exactly one
application, the sender container holds exactly one application, and the receiver start time
is less than or equal to the sender start time. -/
theorem receiver_starts_no_later (useTcp verbose : Bool) :
    (∃ srv cli, (main.setup useTcp verbose).serverAppsA = [srv] ∧
        (main.setup useTcp verbose).clientAppsA = [cli] ∧ srv.startTime ≤ cli.startTime) ∧
    (∃ srv cli, (main.setup useTcp verbose).serverAppsB = [srv] ∧
        (main.setup useTcp verbose).clientAppsB = [cli] ∧ srv.startTime ≤ cli.startTime) := by
  have h12 : Seconds 1 ≤ Seconds 2 := by
    rw [Time.le_def, Seconds_one, Seconds_two]; decide
  cases useTcp
  · obtain ⟨hA, hB, hC, hD⟩ := setup_udp_containers verbose
    exact ⟨⟨_, _, hA, hC, h12⟩, ⟨_, _, hB, hD, h12⟩⟩
  · obtain ⟨hA, hB, hC, hD⟩ := setup_tcp_containers verbose
    exact ⟨⟨_, _, hA, hC, h12⟩, ⟨_, _, hB, hD, h12⟩⟩

/-! ## C3: the byte budget of the bulk senders -/

/-- C3: in TCP mode the bulk sender of each segment gets `MaxBytes` equal to the product
`maxPackets * packetSize` reduced modulo 2^32; with `maxPackets = 10` and `packetSize = 1024`
the product is below 2^32, so nothing wraps and the value is 10240; `SendSize` is 1024. -/
theorem bulk_send_max_bytes (verbose : Bool) :
    (main.setup true verbose).clientAppsA.map (fun a => a.GetAttribute "MaxBytes") =
        [some (UintegerValue ((maxPackets * packetSize) % 2 ^ 32))] ∧
    (main.setup true verbose).clientAppsB.map (fun a => a.GetAttribute "MaxBytes") =
        [some (UintegerValue ((maxPackets * packetSize) % 2 ^ 32))] ∧
    maxPackets = 10 ∧ packetSize = 1024 ∧
    maxPackets * packetSize < 2 ^ 32 ∧
    (maxPackets * packetSize) % 2 ^ 32 = 10240 ∧
    (main.setup true verbose).clientAppsA.map (fun a => a.GetAttribute "SendSize") =
        [some (UintegerValue 1024)] ∧
    (main.setup true verbose).clientAppsB.map (fun a => a.GetAttribute "SendSize") =
        [some (UintegerValue 1024)] := by
  obtain ⟨_, _, hA, hB⟩ := setup_tcp_containers verbose
  rw [hA, hB]
  exact ⟨by decide, by decide, rfl, rfl, by decide, by decide, by decide, by decide⟩

/-! ## C6: address blocks -/

/-- C6: the two blocks are 10.1.1.0 and 10.1.2.0 with mask 255.255.255.0, and no 32-bit
address lies in both. -/
theorem address_blocks_disjoint (useTcp verbose : Bool) :
    (main.setup useTcp verbose).addressOne = ⟨.quad 10 1 1 0, .quad 255 255 255 0⟩ ∧
    (main.setup useTcp verbose).addressTwo = ⟨.quad 10 1 2 0, .quad 255 255 255 0⟩ ∧
    ¬ ∃ a : Nat, a < 2 ^ 32 ∧ (main.setup useTcp verbose).addressOne.contains a ∧
        (main.setup useTcp verbose).addressTwo.contains a := by
  have h1 : (main.setup useTcp verbose).addressOne = ⟨.quad 10 1 1 0, .quad 255 255 255 0⟩ := by
    cases useTcp <;> cases verbose <;> rfl
  have h2 : (main.setup useTcp verbose).addressTwo = ⟨.quad 10 1 2 0, .quad 255 255 255 0⟩ := by
    cases useTcp <;> cases verbose <;> rfl
  refine ⟨h1, h2, ?_⟩
  rintro ⟨a, -, hA, hB⟩
  rw [h1] at hA
  rw [h2] at hB
  simp only [Ipv4AddressHelper.contains] at hA hB
  rw [hA] at hB
  exact absurd hB (by decide)

/-! ## C7, C8: traffic roles and ports -/

/-- C7: UDP echo applications are installed exactly when `useTcp` is false and TCP
applications exactly when it is true, every installed application being of the selected
family; in either mode each segment has one receiver, on its node of index 1, and one sender,
on its node of index 0, whose target is the address of the interface of index 1 of the same
segment, and that interface belongs to the node of index 1. -/
theorem one_configuration_per_mode (useTcp verbose : Bool) :
    ((∃ a ∈ (main.setup useTcp verbose).applications, a.typeId ∈ udpTypes) ↔ useTcp = false) ∧
    ((∃ a ∈ (main.setup useTcp verbose).applications, a.typeId ∈ tcpTypes) ↔ useTcp = true) ∧
    (∀ a ∈ (main.setup useTcp verbose).applications,
        a.typeId ∈ (if useTcp then tcpTypes else udpTypes)) ∧
    (∃ srv cli, (main.setup useTcp verbose).serverAppsA = [srv] ∧
        (main.setup useTcp verbose).clientAppsA = [cli] ∧
        srv.typeId = (if useTcp then "ns3::PacketSink" else "ns3::UdpEchoServer") ∧
        cli.typeId = (if useTcp then "ns3::BulkSendApplication" else "ns3::UdpEchoClient") ∧
        (main.setup useTcp verbose).nodesOne.Get 1 = some srv.node ∧
        (main.setup useTcp verbose).nodesOne.Get 0 = some cli.node ∧
        cli.remoteAddress = some (.quad 10 1 1 2) ∧
        GetAddress (main.setup useTcp verbose).interfacesA 1 = cli.remoteAddress ∧
        ((main.setup useTcp verbose).interfacesA.get? 1).map (fun i => i.device.node) =
          some srv.node) ∧
    (∃ srv cli, (main.setup useTcp verbose).serverAppsB = [srv] ∧
        (main.setup useTcp verbose).clientAppsB = [cli] ∧
        srv.typeId = (if useTcp then "ns3::PacketSink" else "ns3::UdpEchoServer") ∧
        cli.typeId = (if useTcp then "ns3::BulkSendApplication" else "ns3::UdpEchoClient") ∧
        (main.setup useTcp verbose).nodesTwo.Get 1 = some srv.node ∧
        (main.setup useTcp verbose).nodesTwo.Get 0 = some cli.node ∧
        cli.remoteAddress = some (.quad 10 1 2 2) ∧
        GetAddress (main.setup useTcp verbose).interfacesB 1 = cli.remoteAddress ∧
        ((main.setup useTcp verbose).interfacesB.get? 1).map (fun i => i.device.node) =
          some srv.node) := by
  cases useTcp
  · obtain ⟨hA, hB, hC, hD⟩ := setup_udp_containers verbose
    refine ⟨?_, ?_, ?_, ⟨_, _, hA, hC, ?_⟩, ⟨_, _, hB, hD, ?_⟩⟩
    · rw [setup_udp_applications]; decide
    · rw [setup_udp_applications]; decide
    · rw [setup_udp_applications]; decide
    · cases verbose <;> decide
    · cases verbose <;> decide
  · obtain ⟨hA, hB, hC, hD⟩ := setup_tcp_containers verbose
    refine ⟨?_, ?_, ?_, ⟨_, _, hA, hC, ?_⟩, ⟨_, _, hB, hD, ?_⟩⟩
    · rw [setup_tcp_applications]; decide
    · rw [setup_tcp_applications]; decide
    · rw [setup_tcp_applications]; decide
    · cases verbose <;> decide
    · cases verbose <;> decide

/-- C8: in UDP mode server and client of segment A use port 9 and those of segment B port 10;
in TCP mode sink and bulk sender of segment A use port 8080 and those of segment B port 8081;
in each mode the ports of the two segments differ. -/
theorem ports_per_segment (verbose : Bool) :
    ((main.setup false verbose).serverAppsA.map Application.port = [some 9] ∧
      (main.setup false verbose).clientAppsA.map Application.port = [some 9] ∧
      (main.setup false verbose).serverAppsB.map Application.port = [some 10] ∧
      (main.setup false verbose).clientAppsB.map Application.port = [some 10] ∧
      (main.setup false verbose).serverAppsA.map Application.port ≠
        (main.setup false verbose).serverAppsB.map Application.port) ∧
    ((main.setup true verbose).serverAppsA.map Application.port = [some 8080] ∧
      (main.setup true verbose).clientAppsA.map Application.port = [some 8080] ∧
      (main.setup true verbose).serverAppsB.map Application.port = [some 8081] ∧
      (main.setup true verbose).clientAppsB.map Application.port = [some 8081] ∧
      (main.setup true verbose).serverAppsA.map Application.port ≠
        (main.setup true verbose).serverAppsB.map Application.port) := by
  cases verbose <;> decide

/-! ## C10: the verbose flag in UDP mode -/

/-- C10: in UDP mode the whole configuration (log registry, applications, attributes, start
and stop times, everything else) is the same for `verbose = true` and `verbose = false`, and
the log registry holds the two echo components at INFO level, which are enabled before the
topology is built. -/
theorem verbose_no_effect_udp :
    main.setup false true = main.setup false false ∧
    ∀ verbose : Bool, (main.setup false verbose).log =
      [("UdpEchoClientApplication", LogLevel.LOG_LEVEL_INFO),
        ("UdpEchoServerApplication", LogLevel.LOG_LEVEL_INFO)] := by
  refine ⟨rfl, ?_⟩
  intro verbose
  cases verbose <;> rfl

/-! ## C5: mean delay -/

theorem Double.div_finite_of_ne (a b : ℚ) (hb : b ≠ 0) :
    Double.div (.finite a) (.finite b) = .finite (a / b) := by
  simp [Double.div, hb]

theorem Double.div_finite_zero (a : ℚ) :
    Double.div (.finite a) (.finite 0) = Double.byZero a := by
  simp [Double.div]

theorem Double.byZero_not_finite (a : ℚ) : (Double.byZero a).isFinite = false := by
  unfold Double.byZero
  split_ifs <;> rfl

/-- C5: the Delay statement is part of every block, whatever the record holds; when the
received-packet count is positive its value is the finite quotient delaySum / rxPackets, and
when the count is zero the division is by zero and the value is the non-finite result of
that division. -/
theorem mean_delay_unguarded (FindFlow : FlowId → FiveTuple) (i : FlowId × FlowStats) :
    [Item.text "Delay: ", Item.real (meanDelay i.2), Item.text " s\n"] ∈
        main.report.block FindFlow i ∧
    (0 < i.2.rxPackets →
      meanDelay i.2 = .finite (i.2.delaySum.GetSeconds / (i.2.rxPackets : ℚ))) ∧
    (i.2.rxPackets = 0 →
      meanDelay i.2 = Double.byZero i.2.delaySum.GetSeconds ∧
        (meanDelay i.2).isFinite = false) := by
  refine ⟨by simp [main.report.block], ?_, ?_⟩
  · intro h
    have hne : ((i.2.rxPackets : ℚ)) ≠ 0 := by exact_mod_cast (Nat.pos_iff_ne_zero.mp h)
    exact Double.div_finite_of_ne _ _ hne
  · intro h
    have hz : meanDelay i.2 = Double.byZero i.2.delaySum.GetSeconds := by
      unfold meanDelay
      rw [h, Nat.cast_zero, Double.div_finite_zero]
    exact ⟨hz, by rw [hz]; exact Double.byZero_not_finite _⟩

/-- C5, instance: a flow with ten received packets and a flow with none. -/
theorem mean_delay_unguarded_witness :
    0 < statsDelivered.rxPackets ∧
      meanDelay statsDelivered =
        .finite (statsDelivered.delaySum.GetSeconds / (statsDelivered.rxPackets : ℚ)) ∧
      statsNothingReceived.rxPackets = 0 ∧
      (meanDelay statsNothingReceived).isFinite = false :=
  ⟨by decide,
    (mean_delay_unguarded sampleFindFlow (1, statsDelivered)).2.1 (by decide),
    by decide,
    ((mean_delay_unguarded sampleFindFlow (2, statsNothingReceived)).2.2 (by decide)).2⟩

/-! ## C9: shape of the report -/

theorem block_length (FindFlow : FlowId → FiveTuple) (i : FlowId × FlowStats) :
    (main.report.block FindFlow i).length = 9 := rfl

theorem block_labels (FindFlow : FlowId → FiveTuple) (i : FlowId × FlowStats) :
    (main.report.block FindFlow i).map Statement.label = blockLabels.map some := rfl

theorem block_flowIds (FindFlow : FlowId → FiveTuple) (i : FlowId × FlowStats) :
    (main.report.block FindFlow i).filterMap Statement.flowId = [i.1] := rfl

theorem block_newlines (FindFlow : FlowId → FiveTuple) (i : FlowId × FlowStats) :
    ∀ st ∈ main.report.block FindFlow i, Statement.newlines st = 1 := by
  intro st hst
  simp only [main.report.block, List.mem_cons, List.mem_singleton, List.not_mem_nil,
    or_false] at hst
  rcases hst with rfl | rfl | rfl | rfl | rfl | rfl | rfl | rfl | rfl <;> rfl

theorem loop_length (FindFlow : FlowId → FiveTuple) (l : List (FlowId × FlowStats)) :
    (main.report.loop FindFlow l).length = 9 * l.length := by
  induction l with
  | nil => rfl
  | cons i rest ih =>
    simp only [main.report.loop, List.length_append, block_length, ih, List.length_cons]
    omega

theorem loop_newlines (FindFlow : FlowId → FiveTuple) (l : List (FlowId × FlowStats)) :
    ∀ st ∈ main.report.loop FindFlow l, Statement.newlines st = 1 := by
  induction l with
  | nil => intro st hst; simp [main.report.loop] at hst
  | cons i rest ih =>
    intro st hst
    simp only [main.report.loop, List.mem_append] at hst
    rcases hst with h | h
    · exact block_newlines FindFlow i st h
    · exact ih st h

theorem loop_flowIds (FindFlow : FlowId → FiveTuple) (l : List (FlowId × FlowStats)) :
    (main.report.loop FindFlow l).filterMap Statement.flowId = l.map Prod.fst := by
  induction l with
  | nil => rfl
  | cons i rest ih =>
    simp only [main.report.loop, List.filterMap_append, block_flowIds, ih, List.map_cons,
      List.singleton_append]

theorem loop_block_at (FindFlow : FlowId → FiveTuple) (l : List (FlowId × FlowStats)) :
    ∀ (k : Nat) (hk : k < l.length),
      ((main.report.loop FindFlow l).drop (9 * k)).take 9 =
        main.report.block FindFlow (l.get ⟨k, hk⟩) := by
  induction l with
  | nil => intro k hk; simp at hk
  | cons i rest ih =>
    intro k hk
    cases k with
    | zero =>
      simp only [main.report.loop, Nat.mul_zero, List.drop_zero, List.get_cons_zero]
      exact List.take_left' (block_length FindFlow i)
    | succ k =>
      have hk2 : k < rest.length := by simpa using hk
      have h9 : 9 * (k + 1) = 9 + 9 * k := by omega
      have hd : (main.report.loop FindFlow (i :: rest)).drop (9 + 9 * k) =
          (main.report.loop FindFlow rest).drop (9 * k) := by
        rw [← List.drop_drop]
        simp only [main.report.loop]
        rw [List.drop_left' (block_length FindFlow i)]
      rw [h9, hd, ih k hk2]
      rfl

/-- C9 (as stated, refuted): for a map with one flow the report has nine statements, each
ending one line, not eight. -/
theorem report_one_flow_nine_lines :
    (main.report sampleFindFlow oneFlow).length = 9 ∧
      ((main.report sampleFindFlow oneFlow).map Statement.newlines).sum = 9 ∧
      ¬ ((main.report sampleFindFlow oneFlow).length = 8 * oneFlow.entries.length) := by
  decide

/-- C9 (amended): the report is one block per map entry in ascending flow-id order; each
block is eight field statements, in the order flow id with address pair, Tx Packets, Rx
Packets, Tx Bytes, Rx Bytes, Throughput, Delay, Lost Packets, followed by the divider; every
statement ends exactly one line, so the report has 9 × (number of flows) lines, and it is
empty for an empty map. -/
theorem report_nine_lines_per_flow (FindFlow : FlowId → FiveTuple) (stats : FlowMap) :
    (main.report FindFlow stats).length = 9 * stats.entries.length ∧
    (∀ st ∈ main.report FindFlow stats, Statement.newlines st = 1) ∧
    (main.report FindFlow stats).filterMap Statement.flowId = stats.entries.map Prod.fst ∧
    ((main.report FindFlow stats).filterMap Statement.flowId).Pairwise (fun a b => a < b) ∧
    (∀ (k : Nat) (hk : k < stats.entries.length),
      ((main.report FindFlow stats).drop (9 * k)).take 9 =
        main.report.block FindFlow (stats.entries.get ⟨k, hk⟩)) ∧
    (∀ i, (main.report.block FindFlow i).map Statement.label = blockLabels.map some) ∧
    (∀ i, (main.report.block FindFlow i).length = 9) ∧
    (stats.entries = [] → main.report FindFlow stats = []) := by
  refine ⟨loop_length FindFlow _, loop_newlines FindFlow _, loop_flowIds FindFlow _, ?_,
    loop_block_at FindFlow _, block_labels FindFlow, block_length FindFlow, ?_⟩
  · unfold main.report
    rw [loop_flowIds, List.pairwise_map]
    exact stats.ordered
  · intro h
    unfold main.report
    rw [h]
    rfl

/-- C9 (amended), instance: a map with the two flows 1 and 2. -/
theorem report_nine_lines_per_flow_witness :
    (main.report sampleFindFlow twoFlows).length = 18 ∧
      (main.report sampleFindFlow twoFlows).filterMap Statement.flowId = [1, 2] ∧
      ((main.report sampleFindFlow twoFlows).drop 9).take 9 =
        main.report.block sampleFindFlow (2, statsNothingReceived) ∧
      (main.report sampleFindFlow (⟨[], List.Pairwise.nil⟩ : FlowMap) = []) :=
  ⟨(report_nine_lines_per_flow sampleFindFlow twoFlows).1,
    (report_nine_lines_per_flow sampleFindFlow twoFlows).2.2.1,
    (report_nine_lines_per_flow sampleFindFlow twoFlows).2.2.2.2.1 1 (by decide),
    (report_nine_lines_per_flow sampleFindFlow ⟨[], List.Pairwise.nil⟩).2.2.2.2.2.2.2 rfl⟩

end FirstAssignment
